import Mathlib

/-!
Verification of a WebXR two-point AR distance-measurement module.

The source consists of two JavaScript files: a module defining the classes
`HitTestManager`, `PlaneDetector` and `MeasurementHelper`, and `app.js` which
wires them to the DOM and the render loop.  This development shallowly embeds
the state and operations of `HitTestManager` and `MeasurementHelper`:

* Vectors (`THREE.Vector3`) are idealised as triples of rationals (every
  JavaScript double is a rational; we work to floating-point tolerance).
* Scene objects (`THREE.Mesh`, `THREE.Line`, `THREE.Sprite`) have JavaScript
  object identity; we model each created object as a pair of a fresh numeric
  id and a description of the primitive.  `scene.add` appends to a list,
  `scene.remove` deletes by id.
* The mutable fields of each class become a record threaded explicitly
  through the operations; a method's return value is paired with the record.
* `await`-able XR operations that can reject become `Except`-valued fields of
  the session record; `try/catch` becomes a `match` on the `Except`.
-/

namespace ARMeasure

/-- A 3-vector, idealising `THREE.Vector3` (x, y, z). -/
abbrev Vec3 : Type := ℚ × ℚ × ℚ

/-- Renderable scene primitives owned by `MeasurementHelper`:
point markers (`THREE.Mesh` spheres), measurement lines (`THREE.Line`),
and distance-label sprites (`THREE.Sprite` carrying the label text). -/
inductive Prim : Type where
  | mesh (pos : Vec3)
  | lineOf (p1 p2 : Vec3)
  | sprite (text : String) (pos : Vec3)
deriving DecidableEq

/-- A scene object: a fresh id playing the role of JavaScript object
identity, together with the primitive's description. -/
abbrev Obj : Type := Nat × Prim

/-- The render graph contents, as far as this module touches them. -/
abbrev Scene : Type := List Obj

/-- `scene.add(object)`. -/
def sceneAdd (sc : Scene) (o : Obj) : Scene := sc ++ [o]

/-- `scene.remove(object)`: removal by object identity (our ids). -/
def sceneRemove (sc : Scene) (id : Nat) : Scene := sc.filter (fun o => o.1 != id)

/-- Squared Euclidean distance of two vectors, exact over ℚ. -/
def distSq (a b : Vec3) : ℚ :=
  (a.1 - b.1) ^ 2 + (a.2.1 - b.2.1) ^ 2 + (a.2.2 - b.2.2) ^ 2

/-- `THREE.Vector3.prototype.distanceTo`: the Euclidean distance. -/
noncomputable def distanceTo (a b : Vec3) : ℝ :=
  Real.sqrt ((distSq a b : ℚ) : ℝ)

/-- `new THREE.Vector3().addVectors(p1, p2).multiplyScalar(0.5)`. -/
def midPoint (a b : Vec3) : Vec3 :=
  ((a.1 + b.1) / 2, (a.2.1 + b.2.1) / 2, (a.2.2 + b.2.2) / 2)

/-- `sprite.position.copy(position); sprite.position.y += 0.05`:
the label sprite sits 0.05 above the requested anchor position. -/
def spriteShift (position : Vec3) : Vec3 :=
  (position.1, position.2.1 + 1 / 20, position.2.2)

/-- `Number.prototype.toFixed(1)` on a nonnegative value, idealised over ℝ:
round to the nearest tenth (halves up) and print one fractional digit. -/
noncomputable def jsToFixed1 (x : ℝ) : String :=
  let m : ℤ := ⌊x * 10 + 1 / 2⌋
  toString (m / 10) ++ "." ++ toString (m % 10)

/-- The mutable state of a `MeasurementHelper` instance, together with the
scene it writes to and a counter supplying fresh object identities.
`points`, `markers`, `lineSegments` mirror the fields of the class;
note that the class pushes distance-label sprites into `markers` too. -/
structure MeasurementHelper : Type where
  points : List Vec3
  markers : List Obj
  lineSegments : List Obj
  scene : Scene
  nextId : Nat
deriving DecidableEq

/-- A fresh helper (the constructor) writing to an empty scene. -/
def mh0 : MeasurementHelper :=
  { points := [], markers := [], lineSegments := [], scene := [], nextId := 0 }

namespace MeasurementHelper

/-- `createTextLabel(text, position)`: build a sprite showing `text`, place
it at `position` raised by 0.05 in y, add it to the scene, return it. -/
def createTextLabel (s : MeasurementHelper) (text : String) (position : Vec3) :
    MeasurementHelper × Obj :=
  let obj : Obj := (s.nextId, Prim.sprite text (spriteShift position))
  ({ s with scene := sceneAdd s.scene obj, nextId := s.nextId + 1 }, obj)

/-- `createLineSegment(point1, point2)`: add a line primitive between the two
points (pushed onto `lineSegments`), compute the distance, create the
distance label at the midpoint (pushed onto `markers`!), return the
distance. -/
noncomputable def createLineSegment (s : MeasurementHelper) (point1 point2 : Vec3) :
    MeasurementHelper × ℝ :=
  let lineObj : Obj := (s.nextId, Prim.lineOf point1 point2)
  let s1 : MeasurementHelper :=
    { s with scene := sceneAdd s.scene lineObj, nextId := s.nextId + 1,
             lineSegments := s.lineSegments ++ [lineObj] }
  let distance : ℝ := distanceTo point1 point2
  let mid : Vec3 := midPoint point1 point2
  let res := s1.createTextLabel (jsToFixed1 (distance * 100) ++ " cm") mid
  ({ res.1 with markers := res.1.markers ++ [res.2] }, distance)

/-- `addPoint(position)`: push a clone of the position, create and add its
marker, and if two or more points now exist create a line segment between
the last two; return `points.length`. -/
noncomputable def addPoint (s : MeasurementHelper) (position : Vec3) :
    MeasurementHelper × Nat :=
  let point : Vec3 := position
  let s1 : MeasurementHelper := { s with points := s.points ++ [point] }
  let markerObj : Obj := (s1.nextId, Prim.mesh point)
  let s2 : MeasurementHelper :=
    { s1 with scene := sceneAdd s1.scene markerObj, nextId := s1.nextId + 1,
              markers := s1.markers ++ [markerObj] }
  let s3 : MeasurementHelper :=
    if 2 ≤ s2.points.length then
      let lastIndex : Nat := s2.points.length - 1
      let p1 : Vec3 := s2.points.getD (lastIndex - 1) point
      let p2 : Vec3 := s2.points.getD lastIndex point
      (s2.createLineSegment p1 p2).1
    else s2
  (s3, s3.points.length)

/-- `clear()`: remove every object in `markers` and `lineSegments` from the
scene and empty the three collections. -/
def clear (s : MeasurementHelper) : MeasurementHelper :=
  let sc1 : Scene := s.markers.foldl (fun sc o => sceneRemove sc o.1) s.scene
  let sc2 : Scene := s.lineSegments.foldl (fun sc o => sceneRemove sc o.1) sc1
  { points := [], markers := [], lineSegments := [], scene := sc2, nextId := s.nextId }

/-- `removeLastMeasurement()`: no-op when `points` is empty; otherwise pop
the last element of `markers` and remove it from the scene, then — when
`lineSegments` is nonempty and the (not yet popped) point count is odd —
pop the last line and remove it, and finally pop the last point. -/
def removeLastMeasurement (s : MeasurementHelper) : MeasurementHelper :=
  if s.points.length = 0 then s
  else
    let s1 : MeasurementHelper :=
      if 0 < s.markers.length then
        match s.markers.getLast? with
        | some lastMarker =>
            { s with markers := s.markers.dropLast,
                     scene := sceneRemove s.scene lastMarker.1 }
        | none => s
      else s
    let s2 : MeasurementHelper :=
      if 0 < s1.lineSegments.length then
        if s1.points.length % 2 = 1 then
          match s1.lineSegments.getLast? with
          | some lastLine =>
              { s1 with lineSegments := s1.lineSegments.dropLast,
                        scene := sceneRemove s1.scene lastLine.1 }
          | none => s1
        else s1
      else s1
    { s2 with points := s2.points.dropLast }

end MeasurementHelper

/-- The position of the most recently pushed label sprite, if the last
element of `markers` is a label sprite. -/
def labelPos (s : MeasurementHelper) : Option Vec3 :=
  s.markers.getLast?.bind (fun o =>
    match o.2 with
    | Prim.sprite _ pos => some pos
    | _ => none)

/-- The text of the most recently pushed label sprite, if the last element
of `markers` is a label sprite. -/
def labelText (s : MeasurementHelper) : Option String :=
  s.markers.getLast?.bind (fun o =>
    match o.2 with
    | Prim.sprite text _ => some text
    | _ => none)

/-- First sample point used in concrete runs. -/
def pA : Vec3 := (0, 0, 0)

/-- Second sample point, one unit from `pA`. -/
def pB : Vec3 := (1, 0, 0)

/-- The session after `addPoint(pA); addPoint(pB)` from a fresh helper:
the "Completed" configuration (two points, one segment). -/
noncomputable def s2AB : MeasurementHelper :=
  ((mh0.addPoint pA).1.addPoint pB).1

/-! ### The hit-test module -/

/-- A transform, as the flat (column-major) 16-entry array exposed by
`pose.transform.matrix` and consumed by `THREE.Matrix4.fromArray`. -/
abbrev Mat4 : Type := List ℚ

/-- A quaternion (x, y, z, w). -/
abbrev Quat : Type := ℚ × ℚ × ℚ × ℚ

/-- Opaque handle of an `XRHitTestSource`. -/
abbrev XRSource : Type := Nat

/-- Opaque handle of an `XRReferenceSpace`. -/
abbrev XRRefSpace : Type := Nat

/-- `THREE.Vector3.setFromMatrixPosition`: the translation entries 12–14 of
the column-major array. -/
def setFromMatrixPosition (m : Mat4) : Vec3 :=
  (m.getD 12 0, m.getD 13 0, m.getD 14 0)

/-- A hit-test result as assembled by `getHitTestResults`. -/
structure HitResult : Type where
  position : Vec3
  rotation : Quat
  matrix : Mat4
deriving DecidableEq

/-- The mutable state of a `HitTestManager` instance (the `renderer` field
is never read by the embedded methods and is omitted). -/
structure HitTestManager : Type where
  hitTestSource : Option XRSource
  hitTestSourceRequested : Bool
  hitMatrix : Mat4
  hitResults : List HitResult
deriving DecidableEq

/-- A fresh `HitTestManager` (the constructor). -/
def htm0 : HitTestManager :=
  { hitTestSource := none, hitTestSourceRequested := false,
    hitMatrix := [], hitResults := [] }

/-- The XR session as seen by `requestHitTestSource`: a possibly absent
feature set, and the two awaitable acquisition steps, each of which may
reject (`Except.error`). -/
structure XRSession : Type where
  supportedFeatures : Option (List String)
  requestReferenceSpace : String → Except String XRRefSpace
  requestHitTestSource : XRRefSpace → Except String XRSource

/-- A raw intersection from the frame: its pose may fail to resolve against
a reference space, in which case `getPose` yields `none`. -/
structure XRRawHit : Type where
  getPose : XRRefSpace → Option Mat4

/-- A frame snapshot: ranked intersections for a query source. -/
structure XRFrame : Type where
  getHitTestResults : XRSource → List XRRawHit

namespace HitTestManager

/-- `requestHitTestSource(session, referenceSpace)`: return immediately when
a request was already completed; return (with a console warning) when the
session does not advertise the `hit-test` feature; otherwise await a viewer
reference space and a hit-test source, setting the source and the flag only
when both succeed — any rejection is caught and leaves the state unchanged. -/
def requestHitTestSource (m : HitTestManager) (session : XRSession) :
    HitTestManager :=
  if m.hitTestSourceRequested then m
  else
    match session.supportedFeatures with
    | none => m
    | some feats =>
      if "hit-test" ∈ feats then
        match session.requestReferenceSpace "viewer" with
        | Except.error _ => m
        | Except.ok viewerSpace =>
          match session.requestHitTestSource viewerSpace with
          | Except.error _ => m
          | Except.ok src =>
            { m with hitTestSource := some src, hitTestSourceRequested := true }
      else m

/-- `getHitTestResults(frame, referenceSpace)`: reset the cached results;
without a query source return the empty list; otherwise query the frame,
and when at least one intersection exists resolve the pose of the first
one — on success store its matrix and push the decomposed result.  The
quaternion decomposition (`THREE.Quaternion.setFromRotationMatrix`) is
external math, passed in as `quatOf`. -/
def getHitTestResults (quatOf : Mat4 → Quat) (m : HitTestManager)
    (frame : XRFrame) (referenceSpace : XRRefSpace) :
    HitTestManager × List HitResult :=
  let m1 : HitTestManager := { m with hitResults := [] }
  match m1.hitTestSource with
  | none => (m1, m1.hitResults)
  | some src =>
    match frame.getHitTestResults src with
    | [] => (m1, m1.hitResults)
    | hit :: _ =>
      match hit.getPose referenceSpace with
      | none => (m1, m1.hitResults)
      | some mat =>
        let r : HitResult :=
          { position := setFromMatrixPosition mat, rotation := quatOf mat,
            matrix := mat }
        let m2 : HitTestManager := { m1 with hitMatrix := mat, hitResults := [r] }
        (m2, m2.hitResults)

/-- `dispose()`: cancel and drop the source, reset the flag. -/
def dispose (m : HitTestManager) : HitTestManager :=
  { m with hitTestSource := none, hitTestSourceRequested := false }

end HitTestManager

/-- Every way `requestHitTestSource` can fail to acquire a source: the
feature set is absent, the `hit-test` feature is not advertised, the
reference-space request rejects, or the hit-test-source request rejects. -/
def acquisitionFails (session : XRSession) : Prop :=
  session.supportedFeatures = none ∨
  (∃ feats, session.supportedFeatures = some feats ∧ "hit-test" ∉ feats) ∨
  (∃ e, session.requestReferenceSpace "viewer" = Except.error e) ∨
  (∃ v e, session.requestReferenceSpace "viewer" = Except.ok v ∧
    session.requestHitTestSource v = Except.error e)

/-! ### Claim-side notions

These definitions follow the specification's words (Euclidean distance in
the mathematical sense), to be compared with the source's computation. -/

/-- A `Vec3` as a point of the mathematical Euclidean space ℝ³. -/
noncomputable def toEuclid (p : Vec3) : EuclideanSpace ℝ (Fin 3) :=
  ![(p.1 : ℝ), (p.2.1 : ℝ), (p.2.2 : ℝ)]

/-- The Euclidean distance between two points, via Mathlib's metric on
`EuclideanSpace ℝ (Fin 3)` — independent of the source's formula. -/
noncomputable def euclideanDist (a b : Vec3) : ℝ :=
  dist (toEuclid a) (toEuclid b)

/-- The two-point run: `addPoint(p); addPoint(q)` on a fresh helper. -/
noncomputable def run2 (p q : Vec3) : MeasurementHelper :=
  ((mh0.addPoint p).1.addPoint q).1

/-! ### Concrete fixtures used by witnesses -/

/-- A helper state that already holds two points (the "Completed"
configuration as far as `addPoint` is concerned). -/
def sW : MeasurementHelper :=
  { points := [(0, 0, 0), (1, 0, 0)], markers := [], lineSegments := [],
    scene := [], nextId := 7 }

/-- Trivial quaternion decomposition standing in for the external
`THREE.Quaternion.setFromRotationMatrix` in concrete runs. -/
def quat0 : Mat4 → Quat := fun _ => (0, 0, 0, 1)

/-- A frame with no intersections. -/
def fEmpty : XRFrame := ⟨fun _ => []⟩

/-- An intersection whose pose never resolves. -/
def hitNoPose : XRRawHit := ⟨fun _ => none⟩

/-- An identity-rotation pose matrix translated to (5, 6, 7). -/
def mat0 : Mat4 := [1, 0, 0, 0, 0, 1, 0, 0, 0, 0, 1, 0, 5, 6, 7, 1]

/-- An intersection that resolves to `mat0`. -/
def hitWithPose : XRRawHit := ⟨fun _ => some mat0⟩

/-- A frame whose only intersection has no resolvable pose. -/
def fNoPose : XRFrame := ⟨fun _ => [hitNoPose]⟩

/-- A frame whose first-ranked intersection resolves to `mat0`. -/
def fPose : XRFrame := ⟨fun _ => [hitWithPose]⟩

/-- A manager that has completed a source acquisition. -/
def htmSrc : HitTestManager :=
  { hitTestSource := some 0, hitTestSourceRequested := true,
    hitMatrix := [], hitResults := [] }

/-- A session whose acquisition steps would all succeed. -/
def sessOk : XRSession :=
  { supportedFeatures := some ["hit-test"],
    requestReferenceSpace := fun _ => Except.ok 0,
    requestHitTestSource := fun _ => Except.ok 0 }

/-- A session on which every acquisition path fails. -/
def sessBad : XRSession :=
  { supportedFeatures := none,
    requestReferenceSpace := fun _ => Except.error "rejected",
    requestHitTestSource := fun _ => Except.error "rejected" }

/-- A helper owning one marker and one line, the scene holding exactly
those two objects. -/
def mhOwned : MeasurementHelper :=
  { points := [], markers := [(0, Prim.mesh (0, 0, 0))],
    lineSegments := [(1, Prim.lineOf (0, 0, 0) (1, 0, 0))],
    scene := [(0, Prim.mesh (0, 0, 0)), (1, Prim.lineOf (0, 0, 0) (1, 0, 0))],
    nextId := 2 }

/-! ### Helper lemmas -/

theorem distanceTo_eq_euclideanDist (a b : Vec3) :
    distanceTo a b = euclideanDist a b := by
  rw [euclideanDist, EuclideanSpace.dist_eq, distanceTo]
  congr 1
  rw [Fin.sum_univ_three]
  simp only [toEuclid, Matrix.cons_val_zero, Matrix.cons_val_one, Matrix.head_cons,
    Matrix.cons_val_two, Matrix.tail_cons, Real.dist_eq, sq_abs, distSq]
  push_cast
  ring

/-- Folding `sceneRemove` over a list of objects only ever deletes scene
entries: the result is a sub-collection of the starting scene. -/
theorem foldl_sceneRemove_subset (L : List Obj) (sc : Scene) :
    ∀ x ∈ L.foldl (fun acc o => sceneRemove acc o.1) sc, x ∈ sc := by
  induction L generalizing sc with
  | nil => intro x hx; exact hx
  | cons a L ih =>
    intro x hx
    exact List.mem_of_mem_filter (ih (sceneRemove sc a.1) x hx)

/-- After folding `sceneRemove` over a list of objects, no scene entry
carries the id of any object of that list. -/
theorem foldl_sceneRemove_removes (L : List Obj) (sc : Scene) (o : Obj)
    (ho : o ∈ L) :
    ∀ x ∈ L.foldl (fun acc o => sceneRemove acc o.1) sc, x.1 ≠ o.1 := by
  induction L generalizing sc with
  | nil => cases ho
  | cons a L ih =>
    intro x hx
    rcases List.mem_cons.mp ho with h | h
    · have hx' : x ∈ sceneRemove sc a.1 :=
        foldl_sceneRemove_subset L (sceneRemove sc a.1) x hx
      have hx2 : x ∈ List.filter (fun o => o.1 != a.1) sc := hx'
      have hb := (List.mem_filter.mp hx2).2
      rw [h]
      simpa using hb
    · exact ih (sceneRemove sc a.1) h x hx

/-! ### Claims -/

/-- C1 (code bug): evaluating `removeLastMeasurement` at the failing input —
a fresh helper after `addPoint((0,0,0)); addPoint((1,0,0))`, i.e. the
Completed configuration with 2 points and 1 segment.  The first call leaves
1 point but still 1 line segment (it pops the label sprite, not the second
point's marker, and the parity guard `points.length % 2 === 1` is checked
before the point is popped, so the line survives); the second call pops the
second point's marker and the line, leaving the first point's marker
orphaned in `markers`.  The claim's "one call leaves exactly 1 point and 0
segments" is therefore false of the code. -/
theorem undo_after_complete_diverges :
    s2AB.points.length = 2 ∧ s2AB.lineSegments.length = 1 ∧
    s2AB.markers.length = 3 ∧
    s2AB.removeLastMeasurement.points.length = 1 ∧
    s2AB.removeLastMeasurement.lineSegments.length = 1 ∧
    s2AB.removeLastMeasurement.markers.length = 2 ∧
    s2AB.removeLastMeasurement.removeLastMeasurement.points.length = 0 ∧
    s2AB.removeLastMeasurement.removeLastMeasurement.lineSegments.length = 0 ∧
    s2AB.removeLastMeasurement.removeLastMeasurement.markers.length = 1 := by
  decide

/-- C2 (code bug): the invariant `len(segments) == max(0, len(points) - 1)`
is violated by the very first `removeLastMeasurement` after a completed
pair: from 2 points and 1 segment the code reaches 1 point while keeping
1 line segment, and `1 ≠ max 0 (1 - 1)`. -/
theorem undo_breaks_segment_invariant :
    s2AB.lineSegments.length = max 0 (s2AB.points.length - 1) ∧
    s2AB.removeLastMeasurement.points.length = 1 ∧
    s2AB.removeLastMeasurement.lineSegments.length = 1 ∧
    s2AB.removeLastMeasurement.lineSegments.length ≠
      max 0 (s2AB.removeLastMeasurement.points.length - 1) := by
  decide

/-- C3: after the second `addPoint` the `markers` collection holds exactly
the two point markers followed by the distance-label sprite as its last
element, and the next `removeLastMeasurement` pops exactly that label
(removing it from the scene) while the second point's marker survives in
`markers` and in the scene (its id, 1, is still present). -/
theorem markers_label_last_and_undo_pops_label (p q : Vec3) :
    (run2 p q).markers =
      [(0, Prim.mesh p), (1, Prim.mesh q),
       (3, Prim.sprite (jsToFixed1 (distanceTo p q * 100) ++ " cm")
          (spriteShift (midPoint p q)))] ∧
    (run2 p q).removeLastMeasurement.markers =
      [(0, Prim.mesh p), (1, Prim.mesh q)] ∧
    ((run2 p q).removeLastMeasurement.scene.all (fun o => o.1 != 3)) = true ∧
    ((run2 p q).removeLastMeasurement.scene.any (fun o => o.1 == 1)) = true := by
  refine ⟨rfl, ?_, ?_, ?_⟩ <;> with_unfolding_all rfl

/-- C4: from a fresh helper, the first `addPoint p` returns 1, stores the
point, creates exactly one marker (the only scene object) and no segment;
the second `addPoint q` returns 2, stores the point, and creates exactly
one segment — a line between the two points plus the distance label — so
`lineSegments.length = 1` after exactly two calls. -/
theorem addPoint_first_and_second_call (p q : Vec3) :
    (mh0.addPoint p).2 = 1 ∧
    (mh0.addPoint p).1.points = [p] ∧
    (mh0.addPoint p).1.markers = [(0, Prim.mesh p)] ∧
    (mh0.addPoint p).1.scene = [(0, Prim.mesh p)] ∧
    (mh0.addPoint p).1.lineSegments = [] ∧
    ((mh0.addPoint p).1.addPoint q).2 = 2 ∧
    (run2 p q).points = [p, q] ∧
    (run2 p q).lineSegments = [(2, Prim.lineOf p q)] ∧
    (run2 p q).scene =
      [(0, Prim.mesh p), (1, Prim.mesh q), (2, Prim.lineOf p q),
       (3, Prim.sprite (jsToFixed1 (distanceTo p q * 100) ++ " cm")
          (spriteShift (midPoint p q)))] :=
  ⟨rfl, rfl, rfl, rfl, rfl, rfl, rfl, rfl, rfl⟩

/-- C5 counterexample: for the segment created between (0,0,0) and (1,0,0)
the label sprite is NOT positioned at the midpoint of the two points —
`createTextLabel` raises the sprite by 0.05 in y after copying the anchor
(`sprite.position.y += 0.05`), so it sits at (0.5, 0.05, 0), not (0.5, 0, 0). -/
theorem label_not_at_midpoint :
    labelPos (mh0.createLineSegment pA pB).1 ≠ some (midPoint pA pB) := by
  have h1 : labelPos (mh0.createLineSegment pA pB).1 =
      some (spriteShift (midPoint pA pB)) := rfl
  rw [h1]
  norm_num [spriteShift, midPoint, pA, pB, Prod.ext_iff]

/-- C5 (amended): when a segment is created from two points, its scalar
distance equals the Euclidean distance between them (exactly, in the
real-number idealisation), the label text is that distance times 100
rounded to one decimal place followed by " cm", and the label is positioned
at the midpoint of the two points raised by 0.05 along y; for points 1.0
unit apart the label reads "100.0 cm". -/
theorem segment_distance_and_label :
    (∀ (s : MeasurementHelper) (a b : Vec3),
      (s.createLineSegment a b).2 = euclideanDist a b ∧
      labelPos (s.createLineSegment a b).1 = some (spriteShift (midPoint a b)) ∧
      labelText (s.createLineSegment a b).1 =
        some (jsToFixed1 (euclideanDist a b * 100) ++ " cm")) ∧
    labelText (mh0.createLineSegment pA pB).1 = some "100.0 cm" := by
  have hlab : ∀ (s : MeasurementHelper) (a b : Vec3),
      labelText (s.createLineSegment a b).1 =
        some (jsToFixed1 (distanceTo a b * 100) ++ " cm") := by
    intro s a b
    simp [MeasurementHelper.createLineSegment, MeasurementHelper.createTextLabel,
      labelText, List.getLast?_concat]
  constructor
  · intro s a b
    refine ⟨?_, ?_, ?_⟩
    · rw [← distanceTo_eq_euclideanDist]; rfl
    · simp [MeasurementHelper.createLineSegment, MeasurementHelper.createTextLabel,
        labelPos, List.getLast?_concat]
    · rw [hlab, ← distanceTo_eq_euclideanDist]
  · rw [hlab]
    have hd : distanceTo pA pB = 1 := by
      have h1 : ((distSq pA pB : ℚ) : ℝ) = 1 := by norm_num [distSq, pA, pB]
      rw [distanceTo, h1, Real.sqrt_one]
    rw [hd]
    have hm : (⌊(1:ℝ) * 100 * 10 + 1 / 2⌋ : ℤ) = 1000 := by
      rw [Int.floor_eq_iff] ; norm_num
    simp only [jsToFixed1, hm]
    decide

/-- C6: `addPoint` never rejects a call: with `n ≥ 2` points already placed
it still appends the point, returns `n + 1`, and creates one more segment, a
line between the previously last point and the new one. -/
theorem addPoint_accepts_beyond_two (s : MeasurementHelper) (p : Vec3)
    (h : 2 ≤ s.points.length) :
    (s.addPoint p).2 = s.points.length + 1 ∧
    (s.addPoint p).1.points = s.points ++ [p] ∧
    ∃ q, s.points.getLast? = some q ∧
      (s.addPoint p).1.lineSegments =
        s.lineSegments ++ [(s.nextId + 1, Prim.lineOf q p)] := by
  have hne : s.points ≠ [] := by
    intro h0
    rw [h0] at h
    simp at h
  obtain ⟨l, q, hp⟩ : ∃ l q, s.points = l ++ [q] :=
    ⟨s.points.dropLast, s.points.getLast hne, (List.dropLast_append_getLast hne).symm⟩
  simp only [MeasurementHelper.addPoint, MeasurementHelper.createLineSegment,
    MeasurementHelper.createTextLabel, hp]
  have hcond : 2 ≤ (l ++ [q] ++ [p]).length := by
    simp [List.length_append]
  rw [if_pos hcond]
  have hi1 : (l ++ [q] ++ [p]).length - 1 - 1 = l.length := by
    simp [List.length_append]
  have hi2 : (l ++ [q] ++ [p]).length - 1 = l.length + 1 := by
    simp [List.length_append]
  have hg2 : (l ++ [q] ++ [p]).getD ((l ++ [q] ++ [p]).length - 1) p = p := by
    rw [hi2, List.getD_eq_getElem?_getD]
    have : (l ++ [q]).length = l.length + 1 := by simp
    rw [← this, List.getElem?_concat_length]
    rfl
  have hg1 : (l ++ [q] ++ [p]).getD ((l ++ [q] ++ [p]).length - 1 - 1) p = q := by
    rw [hi1, List.getD_eq_getElem?_getD,
      List.getElem?_append_left (by simp : l.length < (l ++ [q]).length),
      List.getElem?_concat_length]
    rfl
  rw [hg1, hg2]
  refine ⟨by simp [List.length_append], rfl, q, List.getLast?_concat l, rfl⟩

theorem addPoint_accepts_beyond_two_witness :
    2 ≤ sW.points.length ∧
    ((sW.addPoint (2, 0, 0)).2 = sW.points.length + 1 ∧
     (sW.addPoint (2, 0, 0)).1.points = sW.points ++ [(2, 0, 0)] ∧
     ∃ q, sW.points.getLast? = some q ∧
       (sW.addPoint (2, 0, 0)).1.lineSegments =
         sW.lineSegments ++ [(sW.nextId + 1, Prim.lineOf q (2, 0, 0))]) :=
  ⟨by decide, addPoint_accepts_beyond_two sW (2, 0, 0) (by decide)⟩

/-- C7: `getHitTestResults` is total (the embedding returns, never throws)
and returns the empty result list when the source has not been acquired,
when the frame yields zero intersections, or when the first intersection's
pose cannot be resolved; otherwise it returns exactly the one result
decomposed (position from the matrix translation, rotation via the external
quaternion decomposition) from the first-ranked intersection's pose. -/
theorem getHitTestResults_cases (quatOf : Mat4 → Quat) (m : HitTestManager)
    (frame : XRFrame) (ref : XRRefSpace) :
    (m.hitTestSource = none →
      (HitTestManager.getHitTestResults quatOf m frame ref).2 = []) ∧
    (∀ src, m.hitTestSource = some src → frame.getHitTestResults src = [] →
      (HitTestManager.getHitTestResults quatOf m frame ref).2 = []) ∧
    (∀ src hit rest, m.hitTestSource = some src →
      frame.getHitTestResults src = hit :: rest → hit.getPose ref = none →
      (HitTestManager.getHitTestResults quatOf m frame ref).2 = []) ∧
    (∀ src hit rest mat, m.hitTestSource = some src →
      frame.getHitTestResults src = hit :: rest → hit.getPose ref = some mat →
      (HitTestManager.getHitTestResults quatOf m frame ref).2 =
        [{ position := setFromMatrixPosition mat, rotation := quatOf mat,
           matrix := mat }]) := by
  refine ⟨?_, ?_, ?_, ?_⟩
  · intro h
    simp [HitTestManager.getHitTestResults, h]
  · intro src h hf
    simp [HitTestManager.getHitTestResults, h, hf]
  · intro src hit rest h hf hp
    simp [HitTestManager.getHitTestResults, h, hf, hp]
  · intro src hit rest mat h hf hp
    simp [HitTestManager.getHitTestResults, h, hf, hp]

theorem getHitTestResults_cases_witness :
    (HitTestManager.getHitTestResults quat0 htm0 fEmpty 0).2 = [] ∧
    (HitTestManager.getHitTestResults quat0 htmSrc fEmpty 0).2 = [] ∧
    (HitTestManager.getHitTestResults quat0 htmSrc fNoPose 0).2 = [] ∧
    (HitTestManager.getHitTestResults quat0 htmSrc fPose 0).2 =
      [{ position := setFromMatrixPosition mat0, rotation := quat0 mat0,
         matrix := mat0 }] :=
  ⟨(getHitTestResults_cases quat0 htm0 fEmpty 0).1 rfl,
   (getHitTestResults_cases quat0 htmSrc fEmpty 0).2.1 0 rfl rfl,
   (getHitTestResults_cases quat0 htmSrc fNoPose 0).2.2.1 0 hitNoPose [] rfl rfl rfl,
   (getHitTestResults_cases quat0 htmSrc fPose 0).2.2.2 0 hitWithPose [] mat0 rfl rfl rfl⟩

/-- C8: `requestHitTestSource` is idempotent in the request flag — once
`hitTestSourceRequested` is true a further call returns with no side effect
at all (the state is returned unchanged), so a second completed call issues
no second underlying acquisition. -/
theorem requestHitTestSource_idempotent (m : HitTestManager) (session : XRSession)
    (h : m.hitTestSourceRequested = true) :
    m.requestHitTestSource session = m := by
  simp [HitTestManager.requestHitTestSource, h]

theorem requestHitTestSource_idempotent_witness :
    htmSrc.hitTestSourceRequested = true ∧
    htmSrc.requestHitTestSource sessOk = htmSrc :=
  ⟨rfl, requestHitTestSource_idempotent htmSrc sessOk rfl⟩

/-- C9: whenever acquisition cannot succeed — the feature set is absent or
lacks `hit-test`, or either awaited step rejects — `requestHitTestSource`
returns the state unchanged (the embedding is total, so no exception
escapes): the query source stays as it was (unset stays unset) and the
requested flag stays as it was (false stays false), allowing a retry. -/
theorem requestHitTestSource_failure_no_change (m : HitTestManager)
    (session : XRSession) (h : acquisitionFails session) :
    m.requestHitTestSource session = m ∧
    (m.requestHitTestSource session).hitTestSource = m.hitTestSource ∧
    (m.requestHitTestSource session).hitTestSourceRequested =
      m.hitTestSourceRequested := by
  have hmain : m.requestHitTestSource session = m := by
    unfold HitTestManager.requestHitTestSource
    cases hr : m.hitTestSourceRequested with
    | true => simp
    | false =>
      simp only [Bool.false_eq_true, if_false]
      rcases h with h | ⟨feats, hf, hmem⟩ | ⟨e, he⟩ | ⟨v, e, hv, he⟩
      · simp [h]
      · simp [hf, hmem]
      · rcases hsf : session.supportedFeatures with _ | feats
        · simp
        · by_cases hmem : "hit-test" ∈ feats
          · simp [hmem, he]
          · simp [hmem]
      · rcases hsf : session.supportedFeatures with _ | feats
        · simp
        · by_cases hmem : "hit-test" ∈ feats
          · simp [hmem, hv, he]
          · simp [hmem]
  exact ⟨hmain, by rw [hmain], by rw [hmain]⟩

theorem requestHitTestSource_failure_no_change_witness :
    acquisitionFails sessBad ∧
    (htm0.requestHitTestSource sessBad = htm0 ∧
     (htm0.requestHitTestSource sessBad).hitTestSource = htm0.hitTestSource ∧
     (htm0.requestHitTestSource sessBad).hitTestSourceRequested =
       htm0.hitTestSourceRequested) :=
  ⟨Or.inl rfl, requestHitTestSource_failure_no_change htm0 sessBad (Or.inl rfl)⟩

/-- C10: `clear()` is idempotent from any state — a second call returns the
identical (already empty) state — it empties `points`, `markers` and
`lineSegments`, it removes every owned object (marker, line or label) from
the scene, and when the scene held nothing but this helper's owned objects
the cleared scene is empty. -/
theorem clear_idempotent_and_removes_owned (s : MeasurementHelper) :
    s.clear.clear = s.clear ∧
    s.clear.points = [] ∧ s.clear.markers = [] ∧ s.clear.lineSegments = [] ∧
    (∀ o ∈ s.markers ++ s.lineSegments, ∀ x ∈ s.clear.scene, x.1 ≠ o.1) ∧
    ((∀ x ∈ s.scene, ∃ o ∈ s.markers ++ s.lineSegments, x.1 = o.1) →
      s.clear.scene = []) := by
  have hsc : s.clear.scene =
      s.lineSegments.foldl (fun sc o => sceneRemove sc o.1)
        (s.markers.foldl (fun sc o => sceneRemove sc o.1) s.scene) := rfl
  have hremoved : ∀ o ∈ s.markers ++ s.lineSegments,
      ∀ x ∈ s.clear.scene, x.1 ≠ o.1 := by
    intro o ho x hx
    rw [hsc] at hx
    rcases List.mem_append.mp ho with hm | hl
    · exact foldl_sceneRemove_removes s.markers s.scene o hm x
        (foldl_sceneRemove_subset s.lineSegments _ x hx)
    · exact foldl_sceneRemove_removes s.lineSegments _ o hl x hx
  refine ⟨rfl, rfl, rfl, rfl, hremoved, ?_⟩
  intro hall
  rw [List.eq_nil_iff_forall_not_mem]
  intro x hx
  have hxsc : x ∈ s.scene := by
    rw [hsc] at hx
    exact foldl_sceneRemove_subset s.markers s.scene x
      (foldl_sceneRemove_subset s.lineSegments _ x hx)
  obtain ⟨o, ho, hid⟩ := hall x hxsc
  exact hremoved o ho x hx hid

theorem clear_idempotent_and_removes_owned_witness :
    mhOwned.clear.scene = [] ∧ mhOwned.clear.clear = mhOwned.clear :=
  ⟨(clear_idempotent_and_removes_owned mhOwned).2.2.2.2.2 (by decide),
   (clear_idempotent_and_removes_owned mhOwned).1⟩

end ARMeasure
